import Mathlib

/-!
Shallow embedding of the cosnicolaou/weather repository: the `weathergov`
package (cloud coverage enumeration, short-forecast classification, period
lookup) and the `weatherdev` package (boolean weather conditions built on
the NWS client).

Conventions of the embedding:
* `time.Time` instants are modelled as `Int`; `Before` and `After` are the
  strict orders `<` and `>`, `Equal` is `=`, and the zero `time.Time` value
  is `0`.
* Go strings are Lean `String`s; `strings.Contains` and `strings.ToLower`
  are modelled on the character lists (the source only ever feeds them
  ASCII forecast phrases).
* The fallible forecast fetch performed by `Forecast.opacity` through
  `Service.Forecasts` is passed in as an already-resolved
  `Except PredicateError (List ForecastPeriod)` value.
-/

/-- Embedding of `weathergov.OpaqueCloudCoverage`: cloud coverage as a
fraction of the sky, a Go iota enumeration starting at
`UnknownOpaqueCloudCoverage = 0`. -/
inductive OpaqueCloudCoverage where
  | unknownOpaqueCloudCoverage
  | clearSunny
  | mostlyClearSunny
  | partlyCloudySunny
  | mostlyCloudy
  | cloudy
  | rain
  | snow
deriving DecidableEq, Repr

/-- Numeric value of the Go iota enumeration; the Go source compares
coverages with the integer order on these values. -/
def OpaqueCloudCoverage.toNat : OpaqueCloudCoverage → Nat
  | .unknownOpaqueCloudCoverage => 0
  | .clearSunny => 1
  | .mostlyClearSunny => 2
  | .partlyCloudySunny => 3
  | .mostlyCloudy => 4
  | .cloudy => 5
  | .rain => 6
  | .snow => 7

/-- Helper for the model of `strings.Contains`: does `sub` occur as a
contiguous run inside the second list? -/
def listContainsSub (sub : List Char) : List Char → Bool
  | [] => sub.isEmpty
  | c :: rest => sub.isPrefixOf (c :: rest) || listContainsSub sub rest

/-- Model of Go `strings.Contains s sub`. -/
def strContains (s sub : String) : Bool :=
  listContainsSub sub.data s.data

/-- Model of Go `strings.ToLower` (the source only feeds it ASCII forecast
phrases): lowercase every character. -/
def strToLower (s : String) : String :=
  ⟨s.data.map Char.toLower⟩

/-- Embedding of `weathergov.estimateOpaqueCloudCoverage`: lowercase the
text, return `Rain` if it contains "rain", else `Snow` if it contains
"snow", else `Unknown`. -/
def estimateOpaqueCloudCoverage (shortForecast : String) : OpaqueCloudCoverage :=
  let tl := strToLower shortForecast
  if strContains tl "rain" then .rain
  else if strContains tl "snow" then .snow
  else .unknownOpaqueCloudCoverage

/-- Embedding of the `switch p.ShortForecast` classification inside
`weathergov.GetForecast` (a Go switch is an ordered case-sensitive
equality chain; the default case calls `estimateOpaqueCloudCoverage`). -/
def classifyShortForecast (s : String) : OpaqueCloudCoverage :=
  if s = "Clear" ∨ s = "Sunny" then .clearSunny
  else if s = "Mostly Clear" ∨ s = "Mostly Sunny" then .mostlyClearSunny
  else if s = "Partly Cloudy" ∨ s = "Partly Sunny" then .partlyCloudySunny
  else if s = "Mostly Cloudy" then .mostlyCloudy
  else if s = "Cloudy" then .cloudy
  else estimateOpaqueCloudCoverage s

/-- Embedding of `weathergov.Forecast` (a single forecast period):
start/end instants, name, free-text short forecast, derived coverage. -/
structure ForecastPeriod where
  startTime : Int
  endTime : Int
  name : String
  shortForecast : String
  opaqueCloudCoverage : OpaqueCloudCoverage
deriving DecidableEq, Repr

/-- Zero value of the Go `Forecast` struct, returned by `ForTime` when no
period matches. -/
def ForecastPeriod.zero : ForecastPeriod :=
  { startTime := 0, endTime := 0, name := "", shortForecast := "",
    opaqueCloudCoverage := .unknownOpaqueCloudCoverage }

/-- Embedding of the loop body of `weathergov.Forecasts.ForTime`: scan the
period list in stored order, return the first period `f` with
`f.StartTime.Before(t) && f.EndTime.After(t)` together with `true`, or the
zero period and `false` when none matches. -/
def forTimeScan (t : Int) : List ForecastPeriod → ForecastPeriod × Bool
  | [] => (ForecastPeriod.zero, false)
  | f :: rest =>
    if f.startTime < t ∧ f.endTime > t then (f, true) else forTimeScan t rest

/-- Embedding of `weathergov.Forecasts`: the latitude/longitude float
fields are irrelevant to every claim and are omitted; grid cell and the
ordered period list are kept. -/
structure Forecasts where
  gridX : Int
  gridY : Int
  periods : List ForecastPeriod

/-- Embedding of `weathergov.Forecasts.ForTime`. -/
def Forecasts.ForTime (fc : Forecasts) (t : Int) : ForecastPeriod × Bool :=
  forTimeScan t fc.periods

/-- Modelled from the spec: `nws.Forecast.PeriodFor` lives in the external
`cloudeng.io/webapi/clients/nws` client and is not under src. Spec section
4.5 specifies a linear scan for the period whose interval satisfies
`startTime.Before(when)` and `endTime.After(when)`, returning the period
and a found flag — exactly the scan `weathergov.Forecasts.ForTime`
performs. -/
def PeriodFor (periods : List ForecastPeriod) (t : Int) : ForecastPeriod × Bool :=
  forTimeScan t periods

/-- Modelled from the spec: `nws.CloudOpacityFromShortForecast` lives in
the external `cloudeng.io/webapi/clients/nws` client and is not under src.
Spec section 4.3 specifies a case-sensitive exact match against the fixed
canonical-phrase table, then a case-insensitive substring heuristic
checking "rain" before "snow", else `Unknown`. -/
def CloudOpacityFromShortForecast (s : String) : OpaqueCloudCoverage :=
  if s = "Clear" ∨ s = "Sunny" then .clearSunny
  else if s = "Mostly Clear" ∨ s = "Mostly Sunny" then .mostlyClearSunny
  else if s = "Partly Cloudy" ∨ s = "Partly Sunny" then .partlyCloudySunny
  else if s = "Mostly Cloudy" then .mostlyCloudy
  else if s = "Cloudy" then .cloudy
  else if strContains (strToLower s) "rain" then .rain
  else if strContains (strToLower s) "snow" then .snow
  else .unknownOpaqueCloudCoverage

/-- Errors surfaced by the `weatherdev` condition predicates, one
constructor per `fmt.Errorf` site in `Forecast.opacity` plus a propagated
fetch failure. -/
inductive PredicateError where
  | badArgCount
  | invalidArgument (arg : String)
  | fetchFailed (msg : String)
  | noForecastForTime (t : Int)
  | unknownCategoryInForecast (text : String)
deriving DecidableEq, Repr

/-- Embedding of `weatherdev.Forecast.opacity`: check the single argument
classifies, propagate a failed forecast fetch, substitute `now` (the
current time in the caller's configured time zone) for a zero due time,
look up the covering period, and reject a period whose own text classifies
to `Unknown`. -/
def opacity (fetch : Except PredicateError (List ForecastPeriod))
    (args : List String) (due now : Int) :
    Except PredicateError (OpaqueCloudCoverage × OpaqueCloudCoverage) :=
  match args with
  | [arg] =>
    let wanted := CloudOpacityFromShortForecast arg
    if wanted = .unknownOpaqueCloudCoverage then
      .error (.invalidArgument arg)
    else
      match fetch with
      | .error e => .error e
      | .ok periods =>
        let due := if due = 0 then now else due
        let pr := PeriodFor periods due
        if pr.2 then
          let forecast := CloudOpacityFromShortForecast pr.1.shortForecast
          if forecast = .unknownOpaqueCloudCoverage then
            .error (.unknownCategoryInForecast pr.1.shortForecast)
          else
            .ok (forecast, wanted)
        else
          .error (.noForecastForTime due)
  | _ => .error .badArgCount

/-- Embedding of `weatherdev.Forecast.Opacity`: true iff the period
coverage equals the argument coverage. -/
def Opacity (fetch : Except PredicateError (List ForecastPeriod))
    (args : List String) (due now : Int) : Except PredicateError Bool :=
  (opacity fetch args due now).map fun p => decide (p.1 = p.2)

/-- Embedding of `weatherdev.Forecast.MaxOpacity`: true iff the period
coverage is at most the argument coverage in the enum order. -/
def MaxOpacity (fetch : Except PredicateError (List ForecastPeriod))
    (args : List String) (due now : Int) : Except PredicateError Bool :=
  (opacity fetch args due now).map fun p => decide (p.1.toNat ≤ p.2.toNat)

/-- Embedding of `weatherdev.Forecast.MinOpacity`: true iff the period
coverage is at least the argument coverage in the enum order. -/
def MinOpacity (fetch : Except PredicateError (List ForecastPeriod))
    (args : List String) (due now : Int) : Except PredicateError Bool :=
  (opacity fetch args due now).map fun p => decide (p.1.toNat ≥ p.2.toNat)

/-- Embedding of `weatherdev.Forecast.MostlySunny`: overwrite the
arguments with "Mostly Sunny" and delegate to `MaxOpacity`. -/
def MostlySunny (fetch : Except PredicateError (List ForecastPeriod))
    (_args : List String) (due now : Int) : Except PredicateError Bool :=
  MaxOpacity fetch ["Mostly Sunny"] due now

/-- Embedding of `weatherdev.Forecast.PartlyCloudy`: overwrite the
arguments with "Partly Sunny" and delegate to `Opacity`. -/
def PartlyCloudy (fetch : Except PredicateError (List ForecastPeriod))
    (_args : List String) (due now : Int) : Except PredicateError Bool :=
  Opacity fetch ["Partly Sunny"] due now

/-- Embedding of `weatherdev.Forecast.MostlyCloudy`: overwrite the
arguments with "Mostly Cloudy" and delegate to `MinOpacity`. -/
def MostlyCloudy (fetch : Except PredicateError (List ForecastPeriod))
    (_args : List String) (due now : Int) : Except PredicateError Bool :=
  MinOpacity fetch ["Mostly Cloudy"] due now

/-- Embedding of `weatherdev.Forecast.Conditions`: the registry mapping
condition names to predicates; "partly-cloudy" and "partly-sunny" both map
to `PartlyCloudy`. -/
def Conditions : List (String ×
    (Except PredicateError (List ForecastPeriod) → List String → Int → Int →
      Except PredicateError Bool)) :=
  [("cloud-cover", Opacity),
   ("max-cloud-cover", MaxOpacity),
   ("min-cloud-cover", MinOpacity),
   ("mostly-sunny", MostlySunny),
   ("partly-cloudy", PartlyCloudy),
   ("partly-sunny", PartlyCloudy),
   ("mostly-cloudy", MostlyCloudy)]

/-- Claim-side table of the canonical exact-match phrases of spec section
4.3, used to state the two-tier classification claim. -/
def canonicalTable : List (String × OpaqueCloudCoverage) :=
  [("Clear", .clearSunny),
   ("Sunny", .clearSunny),
   ("Mostly Clear", .mostlyClearSunny),
   ("Mostly Sunny", .mostlyClearSunny),
   ("Partly Cloudy", .partlyCloudySunny),
   ("Partly Sunny", .partlyCloudySunny),
   ("Mostly Cloudy", .mostlyCloudy),
   ("Cloudy", .cloudy)]

/-- The five ordered cloud categories of spec section 3 (the clear-to-
cloudy band, excluding the sentinel and the terminal rain/snow values). -/
def cloudBand (c : OpaqueCloudCoverage) : Prop :=
  c = .clearSunny ∨ c = .mostlyClearSunny ∨ c = .partlyCloudySunny ∨
    c = .mostlyCloudy ∨ c = .cloudy

/-- Sample period whose text "Sunny" classifies to `ClearSunny`, used to
instantiate proved properties at concrete inputs. -/
def perSunny : ForecastPeriod :=
  { startTime := 0, endTime := 100, name := "Tonight",
    shortForecast := "Sunny", opaqueCloudCoverage := .clearSunny }

/-- Sample period whose text "Light Rain" classifies to `Rain` through the
substring heuristic. -/
def perRain : ForecastPeriod :=
  { startTime := 0, endTime := 100, name := "Tonight",
    shortForecast := "Light Rain", opaqueCloudCoverage := .rain }

/-- Sample period whose text "Blustery" matches no table entry and no
substring, so it classifies to `Unknown`. -/
def perBlustery : ForecastPeriod :=
  { startTime := 0, endTime := 100, name := "Tonight",
    shortForecast := "Blustery", opaqueCloudCoverage := .unknownOpaqueCloudCoverage }

/-- Sample period with interval 10 to 20, for boundary checks. -/
def perDay : ForecastPeriod :=
  { startTime := 10, endTime := 20, name := "Day",
    shortForecast := "Cloudy", opaqueCloudCoverage := .cloudy }

/-- Sample period overlapping `perDay`, for document-order checks on the
tolerated-but-invalid overlapping layout. -/
def perOverlap : ForecastPeriod :=
  { startTime := 3, endTime := 30, name := "Overlap",
    shortForecast := "Mostly Cloudy", opaqueCloudCoverage := .mostlyCloudy }

/-- Unfolding lemma: with one argument classifying to `B` other than
`Unknown`, a successful fetch, a nonzero due time, a covering period `p`,
and the period text classifying to `A` other than `Unknown`, `opacity`
returns the pair of the period category and the argument category. -/
theorem opacity_ok (periods : List ForecastPeriod) (p : ForecastPeriod)
    (due now : Int) (arg : String) (A B : OpaqueCloudCoverage)
    (hdue : due ≠ 0) (hp : PeriodFor periods due = (p, true))
    (hA : CloudOpacityFromShortForecast p.shortForecast = A)
    (hB : CloudOpacityFromShortForecast arg = B)
    (hAne : A ≠ .unknownOpaqueCloudCoverage)
    (hBne : B ≠ .unknownOpaqueCloudCoverage) :
    opacity (.ok periods) [arg] due now = .ok (A, B) := by
  simp only [opacity, hB, if_neg hBne, if_neg hdue, hp, hA, if_neg hAne, if_true]

/-- Unfolding lemma: when the covering period's own text classifies to
`Unknown`, `opacity` surfaces the unknown-category-in-forecast error. -/
theorem opacity_unknown_err (periods : List ForecastPeriod) (p : ForecastPeriod)
    (due now : Int) (arg : String)
    (hdue : due ≠ 0)
    (harg : CloudOpacityFromShortForecast arg ≠ .unknownOpaqueCloudCoverage)
    (hp : PeriodFor periods due = (p, true))
    (hfc : CloudOpacityFromShortForecast p.shortForecast = .unknownOpaqueCloudCoverage) :
    opacity (.ok periods) [arg] due now =
      .error (.unknownCategoryInForecast p.shortForecast) := by
  simp only [opacity, if_neg harg, if_neg hdue, hp, hfc, if_true]

/-- Unfolding lemma: when the argument text classifies to `Unknown`,
`opacity` fails with the invalid-argument error whatever the fetch
result. -/
theorem opacity_invalid_arg (fetch : Except PredicateError (List ForecastPeriod))
    (arg : String) (due now : Int)
    (harg : CloudOpacityFromShortForecast arg = .unknownOpaqueCloudCoverage) :
    opacity fetch [arg] due now = .error (.invalidArgument arg) := by
  simp only [opacity, harg, if_true]

/-- Every period returned with a `true` flag by the scan is a member of
the list and strictly contains the queried instant. -/
theorem forTimeScan_found_strict (t : Int) :
    ∀ l q, forTimeScan t l = (q, true) → q ∈ l ∧ q.startTime < t ∧ q.endTime > t := by
  intro l
  induction l with
  | nil => simp [forTimeScan]
  | cons f rest ih =>
    intro q h
    rw [forTimeScan] at h
    split at h
    · rename_i hf
      cases h
      exact ⟨List.mem_cons_self f rest, hf.1, hf.2⟩
    · obtain ⟨hm, h1, h2⟩ := ih q h
      exact ⟨List.mem_cons_of_mem f hm, h1, h2⟩

/-- When no period in the list strictly contains the instant, the scan
returns the zero period with a `false` flag. -/
theorem forTimeScan_no_match (t : Int) :
    ∀ l, (∀ q ∈ l, ¬(q.startTime < t ∧ q.endTime > t)) →
      forTimeScan t l = (ForecastPeriod.zero, false) := by
  intro l
  induction l with
  | nil => intro _; rfl
  | cons f rest ih =>
    intro hall
    rw [forTimeScan, if_neg (hall f (List.mem_cons_self f rest))]
    exact ih fun q hq => hall q (List.mem_cons_of_mem f hq)

/-- When `p` is the only member of the list strictly containing the
instant, the scan returns `p` with a `true` flag. -/
theorem forTimeScan_first_match (t : Int) :
    ∀ l p, p ∈ l → p.startTime < t → p.endTime > t →
      (∀ q ∈ l, q.startTime < t → q.endTime > t → q = p) →
      forTimeScan t l = (p, true) := by
  intro l
  induction l with
  | nil => intro p hp; cases hp
  | cons f rest ih =>
    intro p hp h1 h2 hfirst
    by_cases hf : f.startTime < t ∧ f.endTime > t
    · rw [forTimeScan, if_pos hf, hfirst f (List.mem_cons_self f rest) hf.1 hf.2]
    · rw [forTimeScan, if_neg hf]
      rcases List.mem_cons.mp hp with rfl | hmem
      · exact absurd ⟨h1, h2⟩ hf
      · exact ih p hmem h1 h2 fun q hq => hfirst q (List.mem_cons_of_mem f hq)

/-- The scan agrees with `List.find?` on the strict-interior test: it
returns the first matching period in stored order. -/
theorem forTimeScan_eq_find (t : Int) :
    ∀ l, forTimeScan t l =
      (match l.find? (fun f => decide (f.startTime < t ∧ f.endTime > t)) with
        | some f => (f, true)
        | none => (ForecastPeriod.zero, false)) := by
  intro l
  induction l with
  | nil => rfl
  | cons f rest ih =>
    rw [forTimeScan, List.find?_cons]
    by_cases hf : f.startTime < t ∧ f.endTime > t
    · rw [if_pos hf, decide_eq_true hf]
    · rw [if_neg hf, decide_eq_false hf, ih]

/-- The numeric value of the coverage enumeration determines the
category. -/
theorem toNat_injective (a b : OpaqueCloudCoverage) (h : a.toNat = b.toNat) : a = b := by
  cases a <;> cases b <;> first | rfl | (exfalso; revert h; decide)

/-- C1: classification is a pure two-tier function: a case-sensitive exact
match against the canonical-phrase table takes priority; otherwise the
lowercased text is checked for "rain" before "snow" and falls back to
`Unknown`; a compound phrase like "Rain and Snow" yields `Rain`, and a
case-altered table phrase like "cloudy" falls through to the heuristic
and here to `Unknown`. -/
theorem classify_two_tier :
    (∀ s c, canonicalTable.lookup s = some c → classifyShortForecast s = c) ∧
    (∀ s, canonicalTable.lookup s = none →
      (strContains (strToLower s) "rain" = true → classifyShortForecast s = .rain) ∧
      (strContains (strToLower s) "rain" = false →
        strContains (strToLower s) "snow" = true → classifyShortForecast s = .snow) ∧
      (strContains (strToLower s) "rain" = false →
        strContains (strToLower s) "snow" = false →
        classifyShortForecast s = .unknownOpaqueCloudCoverage)) ∧
    classifyShortForecast "Rain and Snow" = .rain ∧
    classifyShortForecast "cloudy" = .unknownOpaqueCloudCoverage := by
  refine ⟨?_, ?_, by decide, rfl⟩
  · intro s c h
    simp only [canonicalTable, List.lookup] at h
    repeat' split at h
    all_goals simp_all [classifyShortForecast, estimateOpaqueCloudCoverage]
  · intro s h
    have h2 : classifyShortForecast s = estimateOpaqueCloudCoverage s := by
      simp only [canonicalTable, List.lookup] at h
      repeat' split at h
      all_goals simp_all [classifyShortForecast]
    refine ⟨fun hr => ?_, fun hr hs => ?_, fun hr hs => ?_⟩ <;>
      simp [h2, estimateOpaqueCloudCoverage, *]

/-- Witness for C1 at concrete inputs: the exact table maps "Mostly Sunny"
and the heuristic maps "Light Rain Showers". -/
theorem classify_two_tier_witness :
    classifyShortForecast "Mostly Sunny" = .mostlyClearSunny ∧
    classifyShortForecast "Light Rain Showers" = .rain := by
  constructor
  · exact classify_two_tier.1 "Mostly Sunny" .mostlyClearSunny rfl
  · exact (classify_two_tier.2.1 "Light Rain Showers" rfl).1 rfl

/-- C2: for a covering period of category `A` and an argument of category
`B`, both in the five-element cloud band, `MaxOpacity` returns the truth
of `A` at most `B`, `MinOpacity` the truth of `A` at least `B`, `Opacity`
the truth of `A` equal to `B`, and `Opacity` holds iff both `MaxOpacity`
and `MinOpacity` hold. -/
theorem ordered_predicates_law (periods : List ForecastPeriod) (p : ForecastPeriod)
    (due now : Int) (arg : String) (A B : OpaqueCloudCoverage)
    (hdue : due ≠ 0) (hp : PeriodFor periods due = (p, true))
    (hA : CloudOpacityFromShortForecast p.shortForecast = A) (hA5 : cloudBand A)
    (hB : CloudOpacityFromShortForecast arg = B) (hB5 : cloudBand B) :
    MaxOpacity (.ok periods) [arg] due now = .ok (decide (A.toNat ≤ B.toNat)) ∧
    MinOpacity (.ok periods) [arg] due now = .ok (decide (A.toNat ≥ B.toNat)) ∧
    Opacity (.ok periods) [arg] due now = .ok (decide (A = B)) ∧
    (Opacity (.ok periods) [arg] due now = .ok true ↔
      (MaxOpacity (.ok periods) [arg] due now = .ok true ∧
       MinOpacity (.ok periods) [arg] due now = .ok true)) := by
  have hAne : A ≠ .unknownOpaqueCloudCoverage := by
    rcases hA5 with rfl | rfl | rfl | rfl | rfl <;> decide
  have hBne : B ≠ .unknownOpaqueCloudCoverage := by
    rcases hB5 with rfl | rfl | rfl | rfl | rfl <;> decide
  have hopac := opacity_ok periods p due now arg A B hdue hp hA hB hAne hBne
  refine ⟨by simp [MaxOpacity, hopac, Except.map], by simp [MinOpacity, hopac, Except.map],
    by simp [Opacity, hopac, Except.map], ?_⟩
  simp only [Opacity, MaxOpacity, MinOpacity, hopac, Except.map]
  simp only [Except.ok.injEq, decide_eq_true_eq]
  constructor
  · rintro rfl
    exact ⟨le_refl _, le_refl _⟩
  · rintro ⟨h1, h2⟩
    have := toNat_injective A B (le_antisymm h1 h2)
    simp [this]

/-- Witness for C2 at concrete inputs: a "Sunny" period against a
"Mostly Cloudy" argument is at most, not at least, and not equal. -/
theorem ordered_predicates_law_witness :
    MaxOpacity (.ok [perSunny]) ["Mostly Cloudy"] 5 0 = .ok true ∧
    MinOpacity (.ok [perSunny]) ["Mostly Cloudy"] 5 0 = .ok false ∧
    Opacity (.ok [perSunny]) ["Mostly Cloudy"] 5 0 = .ok false := by
  have h := ordered_predicates_law [perSunny] perSunny 5 0 "Mostly Cloudy"
    .clearSunny .mostlyCloudy (by decide) rfl rfl (Or.inl rfl) rfl
    (Or.inr (Or.inr (Or.inr (Or.inl rfl))))
  exact ⟨h.1, h.2.1, h.2.2.1⟩

/-- C3: the period lookup matches only the strict interior of a period:
any period returned strictly contains the instant, so a period is never
returned at its own start or end instant; when no period strictly contains
the boundary instant the lookup reports not-found; and at start plus one
tick the period is returned (when it is the unique match). -/
theorem forTime_boundary (fc : Forecasts) (p : ForecastPeriod) (hp : p ∈ fc.periods) :
    (∀ t q, fc.ForTime t = (q, true) → q.startTime < t ∧ t < q.endTime) ∧
    (∀ q, fc.ForTime p.startTime = (q, true) → q ≠ p) ∧
    (∀ q, fc.ForTime p.endTime = (q, true) → q ≠ p) ∧
    ((∀ q ∈ fc.periods, ¬(q.startTime < p.startTime ∧ q.endTime > p.startTime)) →
      fc.ForTime p.startTime = (ForecastPeriod.zero, false)) ∧
    ((∀ q ∈ fc.periods, ¬(q.startTime < p.endTime ∧ q.endTime > p.endTime)) →
      fc.ForTime p.endTime = (ForecastPeriod.zero, false)) ∧
    (p.startTime + 1 < p.endTime →
      (∀ q ∈ fc.periods, q.startTime < p.startTime + 1 → q.endTime > p.startTime + 1 →
        q = p) →
      fc.ForTime (p.startTime + 1) = (p, true)) := by
  refine ⟨?_, ?_, ?_, ?_, ?_, ?_⟩
  · intro t q h
    obtain ⟨_, h1, h2⟩ := forTimeScan_found_strict t fc.periods q h
    exact ⟨h1, h2⟩
  · intro q h hqp
    obtain ⟨_, h1, _⟩ := forTimeScan_found_strict p.startTime fc.periods q h
    rw [hqp] at h1
    exact lt_irrefl _ h1
  · intro q h hqp
    obtain ⟨_, _, h2⟩ := forTimeScan_found_strict p.endTime fc.periods q h
    rw [hqp] at h2
    exact lt_irrefl _ h2
  · intro hall
    exact forTimeScan_no_match p.startTime fc.periods hall
  · intro hall
    exact forTimeScan_no_match p.endTime fc.periods hall
  · intro hlen hfirst
    exact forTimeScan_first_match (p.startTime + 1) fc.periods p hp
      (lt_add_one p.startTime) hlen hfirst

/-- Witness for C3 at a concrete period with interval 10 to 20: not found
at 10, not found at 20, found at 11. -/
theorem forTime_boundary_witness :
    Forecasts.ForTime ⟨32, 81, [perDay]⟩ 10 = (ForecastPeriod.zero, false) ∧
    Forecasts.ForTime ⟨32, 81, [perDay]⟩ 20 = (ForecastPeriod.zero, false) ∧
    Forecasts.ForTime ⟨32, 81, [perDay]⟩ 11 = (perDay, true) := by
  have h := forTime_boundary ⟨32, 81, [perDay]⟩ perDay (List.mem_cons_self _ _)
  refine ⟨h.2.2.2.1 ?_, h.2.2.2.2.1 ?_, h.2.2.2.2.2 (by decide) ?_⟩ <;> decide

/-- C4: the enumeration order is the strict chain Unknown, ClearSunny,
MostlyClearSunny, PartlyCloudySunny, MostlyCloudy, Cloudy, Rain, Snow, so
Rain and Snow sit strictly above Cloudy; consequently `MinOpacity` with an
argument classifying to Cloudy returns true on a period classifying to
Rain or to Snow. -/
theorem rain_snow_min_cloudy (periods : List ForecastPeriod) (p : ForecastPeriod)
    (due now : Int) (arg : String)
    (hdue : due ≠ 0) (hp : PeriodFor periods due = (p, true))
    (hA : CloudOpacityFromShortForecast p.shortForecast = .rain ∨
          CloudOpacityFromShortForecast p.shortForecast = .snow)
    (hB : CloudOpacityFromShortForecast arg = .cloudy) :
    (OpaqueCloudCoverage.unknownOpaqueCloudCoverage.toNat < OpaqueCloudCoverage.clearSunny.toNat ∧
     OpaqueCloudCoverage.clearSunny.toNat < OpaqueCloudCoverage.mostlyClearSunny.toNat ∧
     OpaqueCloudCoverage.mostlyClearSunny.toNat < OpaqueCloudCoverage.partlyCloudySunny.toNat ∧
     OpaqueCloudCoverage.partlyCloudySunny.toNat < OpaqueCloudCoverage.mostlyCloudy.toNat ∧
     OpaqueCloudCoverage.mostlyCloudy.toNat < OpaqueCloudCoverage.cloudy.toNat ∧
     OpaqueCloudCoverage.cloudy.toNat < OpaqueCloudCoverage.rain.toNat ∧
     OpaqueCloudCoverage.rain.toNat < OpaqueCloudCoverage.snow.toNat ∧
     OpaqueCloudCoverage.cloudy.toNat < OpaqueCloudCoverage.snow.toNat) ∧
    MinOpacity (.ok periods) [arg] due now = .ok true := by
  refine ⟨by decide, ?_⟩
  rcases hA with hA | hA
  · have hopac := opacity_ok periods p due now arg .rain .cloudy hdue hp hA hB
      (by decide) (by decide)
    simp [MinOpacity, hopac, Except.map, OpaqueCloudCoverage.toNat]
  · have hopac := opacity_ok periods p due now arg .snow .cloudy hdue hp hA hB
      (by decide) (by decide)
    simp [MinOpacity, hopac, Except.map, OpaqueCloudCoverage.toNat]

/-- Witness for C4 at a concrete "Light Rain" period with a "Cloudy"
argument. -/
theorem rain_snow_min_cloudy_witness :
    MinOpacity (.ok [perRain]) ["Cloudy"] 5 0 = .ok true :=
  (rain_snow_min_cloudy [perRain] perRain 5 0 "Cloudy" (by decide) rfl
    (Or.inl rfl) rfl).2

/-- C5: when the covering period's short-forecast text classifies to
`Unknown` (such as "Blustery"), every condition predicate fails with the
unknown-category-in-forecast error instead of returning a silent false;
for the base predicates the argument must itself classify, since an
invalid argument is rejected first. -/
theorem unknown_category_in_forecast_error (periods : List ForecastPeriod)
    (p : ForecastPeriod) (due now : Int) (arg : String) (args : List String)
    (hdue : due ≠ 0)
    (harg : CloudOpacityFromShortForecast arg ≠ .unknownOpaqueCloudCoverage)
    (hp : PeriodFor periods due = (p, true))
    (hfc : CloudOpacityFromShortForecast p.shortForecast = .unknownOpaqueCloudCoverage) :
    Opacity (.ok periods) [arg] due now =
      .error (.unknownCategoryInForecast p.shortForecast) ∧
    MaxOpacity (.ok periods) [arg] due now =
      .error (.unknownCategoryInForecast p.shortForecast) ∧
    MinOpacity (.ok periods) [arg] due now =
      .error (.unknownCategoryInForecast p.shortForecast) ∧
    MostlySunny (.ok periods) args due now =
      .error (.unknownCategoryInForecast p.shortForecast) ∧
    PartlyCloudy (.ok periods) args due now =
      .error (.unknownCategoryInForecast p.shortForecast) ∧
    MostlyCloudy (.ok periods) args due now =
      .error (.unknownCategoryInForecast p.shortForecast) := by
  have h1 := opacity_unknown_err periods p due now arg hdue harg hp hfc
  have h2 := opacity_unknown_err periods p due now "Mostly Sunny" hdue (by decide) hp hfc
  have h3 := opacity_unknown_err periods p due now "Partly Sunny" hdue (by decide) hp hfc
  have h4 := opacity_unknown_err periods p due now "Mostly Cloudy" hdue (by decide) hp hfc
  exact ⟨by simp [Opacity, h1, Except.map], by simp [MaxOpacity, h1, Except.map],
    by simp [MinOpacity, h1, Except.map], by simp [MostlySunny, MaxOpacity, h2, Except.map],
    by simp [PartlyCloudy, Opacity, h3, Except.map],
    by simp [MostlyCloudy, MinOpacity, h4, Except.map]⟩

/-- Witness for C5 at a concrete "Blustery" period. -/
theorem unknown_category_in_forecast_error_witness :
    Opacity (.ok [perBlustery]) ["Cloudy"] 5 0 =
      .error (.unknownCategoryInForecast "Blustery") ∧
    MostlyCloudy (.ok [perBlustery]) [] 5 0 =
      .error (.unknownCategoryInForecast "Blustery") := by
  have h := unknown_category_in_forecast_error [perBlustery] perBlustery 5 0 "Cloudy" []
    (by decide) (by decide) rfl rfl
  exact ⟨h.1, h.2.2.2.2.2⟩

/-- C6: when the argument text classifies to `Unknown`, the base
predicates fail with the invalid-argument error for every possible fetch
outcome — the result never depends on the fetch, which models that no
forecast retrieval is consulted after the argument check fails. -/
theorem invalid_argument_no_fetch (fetch : Except PredicateError (List ForecastPeriod))
    (arg : String) (due now : Int)
    (harg : CloudOpacityFromShortForecast arg = .unknownOpaqueCloudCoverage) :
    Opacity fetch [arg] due now = .error (.invalidArgument arg) ∧
    MaxOpacity fetch [arg] due now = .error (.invalidArgument arg) ∧
    MinOpacity fetch [arg] due now = .error (.invalidArgument arg) := by
  have h := opacity_invalid_arg fetch arg due now harg
  exact ⟨by simp [Opacity, h, Except.map], by simp [MaxOpacity, h, Except.map],
    by simp [MinOpacity, h, Except.map]⟩

/-- Witness for C6 at the argument "Blustery": the same invalid-argument
error comes back whether the fetch would have failed or succeeded. -/
theorem invalid_argument_no_fetch_witness :
    Opacity (.error (.fetchFailed "network down")) ["Blustery"] 5 0 =
      .error (.invalidArgument "Blustery") ∧
    Opacity (.ok [perSunny]) ["Blustery"] 5 0 =
      .error (.invalidArgument "Blustery") :=
  ⟨(invalid_argument_no_fetch (.error (.fetchFailed "network down")) "Blustery" 5 0 rfl).1,
   (invalid_argument_no_fetch (.ok [perSunny]) "Blustery" 5 0 rfl).1⟩

/-- C7: the derived predicates are exactly compositions of the base
predicates at fixed arguments, and the registry maps both "partly-cloudy"
and "partly-sunny" to the same predicate, so those two agree on every
input. -/
theorem derived_predicate_composition :
    (∀ fetch args due now, MostlySunny fetch args due now =
      MaxOpacity fetch ["Mostly Sunny"] due now) ∧
    (∀ fetch args due now, PartlyCloudy fetch args due now =
      Opacity fetch ["Partly Sunny"] due now) ∧
    (∀ fetch args due now, MostlyCloudy fetch args due now =
      MinOpacity fetch ["Mostly Cloudy"] due now) ∧
    Conditions.lookup "partly-cloudy" = some PartlyCloudy ∧
    Conditions.lookup "partly-sunny" = some PartlyCloudy ∧
    Conditions.lookup "partly-cloudy" = Conditions.lookup "partly-sunny" :=
  ⟨fun _ _ _ _ => rfl, fun _ _ _ _ => rfl, fun _ _ _ _ => rfl, rfl, rfl, rfl⟩

/-- C8: a zero due time is replaced by the current time before the period
lookup, and a nonzero due time is used unchanged, so the result is then
independent of the current time. -/
theorem zero_due_substitution (fetch : Except PredicateError (List ForecastPeriod))
    (args : List String) (now : Int) :
    (opacity fetch args 0 now = opacity fetch args now now) ∧
    (∀ due now1 now2, due ≠ 0 →
      opacity fetch args due now1 = opacity fetch args due now2) := by
  constructor
  · cases args with
    | nil => rfl
    | cons a rest =>
      cases rest with
      | cons b r => rfl
      | nil =>
        simp only [opacity, if_true, ite_self]
  · intro due now1 now2 hdue
    cases args with
    | nil => rfl
    | cons a rest =>
      cases rest with
      | cons b r => rfl
      | nil =>
        simp only [opacity, if_neg hdue]

/-- Witness for C8 at concrete inputs: due 0 behaves as due 5 when now is
5, and due 7 ignores the current time. -/
theorem zero_due_substitution_witness :
    opacity (.ok [perSunny]) ["Cloudy"] 0 5 = opacity (.ok [perSunny]) ["Cloudy"] 5 5 ∧
    opacity (.ok [perSunny]) ["Cloudy"] 7 1 = opacity (.ok [perSunny]) ["Cloudy"] 7 2 :=
  ⟨(zero_due_substitution (.ok [perSunny]) ["Cloudy"] 5).1,
   (zero_due_substitution (.ok [perSunny]) ["Cloudy"] 5).2 7 1 2 (by decide)⟩

/-- C10: `ForTime` scans the stored period list in document order and
returns the first period strictly containing the instant: it agrees with
`List.find?` on the strict-interior test, returns the zero period and
false on an empty list or when nothing matches, and returns the head
period whenever the head matches, even if later overlapping periods also
match. -/
theorem forTime_first_document_order (fc : Forecasts) (t : Int) :
    fc.ForTime t =
      (match fc.periods.find? (fun f => decide (f.startTime < t ∧ f.endTime > t)) with
        | some f => (f, true)
        | none => (ForecastPeriod.zero, false)) ∧
    (fc.periods = [] → fc.ForTime t = (ForecastPeriod.zero, false)) ∧
    ((∀ q ∈ fc.periods, ¬(q.startTime < t ∧ q.endTime > t)) →
      fc.ForTime t = (ForecastPeriod.zero, false)) ∧
    (∀ p rest, fc.periods = p :: rest → p.startTime < t → p.endTime > t →
      fc.ForTime t = (p, true)) := by
  refine ⟨forTimeScan_eq_find t fc.periods, ?_, ?_, ?_⟩
  · intro h
    show forTimeScan t fc.periods = _
    rw [h]
    rfl
  · exact forTimeScan_no_match t fc.periods
  · intro p rest h h1 h2
    show forTimeScan t fc.periods = _
    rw [h, forTimeScan, if_pos ⟨h1, h2⟩]

/-- Witness for C10: with two overlapping periods both containing the
instant 15, the one earlier in document order is returned; the empty list
gives not-found. -/
theorem forTime_first_document_order_witness :
    Forecasts.ForTime ⟨32, 81, [perDay, perOverlap]⟩ 15 = (perDay, true) ∧
    Forecasts.ForTime ⟨32, 81, []⟩ 15 = (ForecastPeriod.zero, false) :=
  ⟨(forTime_first_document_order ⟨32, 81, [perDay, perOverlap]⟩ 15).2.2.2 perDay
      [perOverlap] rfl (by decide) (by decide),
   (forTime_first_document_order ⟨32, 81, []⟩ 15).2.1 rfl⟩
